import Mathlib

/-!
Verification of the CROSS ROADS reservation server (`src/server.js`) and its
companion batch mailer (`src/send-confirmation-emails.js`).

The JavaScript sources are embedded shallowly:

* JSON scalars and flat JSON objects are modelled by `JVal` and `Json`
  (the program only ever stores flat objects whose values are scalars).
* A request-body field is a `ReqVal` (`Option JVal`): `none` models the JS
  value `undefined` (the field absent from the body).
* A file's on-disk text is modelled by the outcome of `JSON.parse` on it:
  `some j` for well-formed JSON text denoting `j`, `none` for malformed text.
  `JSON.parse`/`JSON.stringify` are runtime primitives, not repository code;
  the runtime guarantees that the text produced by `JSON.stringify` parses
  back to the value it serialized, so `save` stores `some (encodeRecord r)`.
  `encodeRecord` mirrors `JSON.stringify` on the `reservationData` object:
  insertion-ordered keys, with properties whose value is `undefined` dropped.
* Effectful steps (the `fs.writeFileSync` call, the two `transporter.sendMail`
  calls, SMTP verification) are driven by boolean oracles in an environment
  record, and the handler result carries an explicit trace of the writes that
  completed and the sends that were attempted.
* `Date.now()` / `new Date().toISOString()` are the `nowMs` / `nowIso`
  fields of the environment.
* JS semantic details that the handlers rely on are modelled explicitly:
  truthiness (`truthy`), `ToNumber` coercion of strings (`jsStringToNumber`;
  only integer numeric literals are modelled — forms such as `1.5`, `0x10`
  or `1e3` are conservatively NaN, which is sound for the values the server
  actually compares, namely ISO-8601 timestamp strings, which always contain
  a letter and are NaN under `ToNumber`), NaN-valued comparator results being
  treated as `0` by `Array.prototype.sort`, and the stability of that sort
  (ES2019), modelled by a stable insertion sort `jsSort`.
-/

namespace CrossRoads

/-- A JSON scalar value (`null`, boolean, number, string).  Numbers are
restricted to integers: every number this program produces (`Date.now()`,
request-body guest counts) is an integer. -/
inductive JVal where
  | jnull : JVal
  | jbool : Bool → JVal
  | jnum : Int → JVal
  | jstr : String → JVal
  deriving DecidableEq, Repr

/-- A JSON value as stored/parsed by this program: a scalar or a flat object
(an insertion-ordered list of key/scalar pairs).  The program never stores
nested objects or arrays, so those are out of scope. -/
inductive Json where
  | scalar : JVal → Json
  | obj : List (String × JVal) → Json
  deriving DecidableEq, Repr

/-- A request-body field as destructured by
`const { name, phone, email, date, time, guests, notes } = req.body`:
`none` is the JS value `undefined` (property absent), `some v` a JSON scalar. -/
abbrev ReqVal := Option JVal

/-- JS truthiness of a `ReqVal`, as tested by `!name || !phone || ...`:
`undefined`, `null`, `false`, `0` and `""` are falsy, everything else truthy. -/
def truthy : ReqVal → Bool
  | none => false
  | some .jnull => false
  | some (.jbool b) => b
  | some (.jnum n) => n != 0
  | some (.jstr s) => s != ""

/-- First-match lookup in an object's key/value list, modelling JS property
access on an object built by `JSON.parse`.  The objects this program builds
have pairwise-distinct keys, so first-match agrees with JS semantics. -/
def jget : List (String × JVal) → String → Option JVal
  | [], _ => none
  | (k, v) :: rest, key => if k = key then some v else jget rest key

/-- JS property access `j.key`: `undefined` (`none`) on scalars and on
objects lacking the key. -/
def Json.get : Json → String → Option JVal
  | .scalar _, _ => none
  | .obj fields, key => jget fields key

/-- Models `String.prototype.startsWith`, as used in
`f.startsWith('reservation-')`. -/
def strStartsWith (s pre : String) : Bool :=
  pre.data.isPrefixOf s.data

/-- Strict all-digit parse of a character list (`none` if empty or any
non-digit). -/
def digitsVal? (cs : List Char) : Option Nat :=
  if cs ≠ [] && cs.all (·.isDigit) then
    some (cs.foldl (fun a c => a * 10 + (c.toNat - 48)) 0)
  else
    none

/-- JS `ToNumber` on a string (as triggered by the `-` operator): trims
whitespace, `""` is `0`, an optionally-signed run of digits is that integer,
anything else is NaN (`none`).  Non-integer numeric literals are also mapped
to NaN here; see the module docstring. -/
def jsStringToNumber (s : String) : Option Int :=
  let t := ((s.data.dropWhile Char.isWhitespace).reverse.dropWhile Char.isWhitespace).reverse
  match t with
  | [] => some (0 : Int)
  | '-' :: rest => (digitsVal? rest).map (fun n => -(n : Int))
  | '+' :: rest => (digitsVal? rest).map (fun n => (n : Int))
  | _ => (digitsVal? t).map (fun n => (n : Int))

/-- JS `ToNumber` of a possibly-`undefined` JSON scalar, `none` = NaN:
`ToNumber(undefined) = NaN`, `ToNumber(null) = 0`, booleans are `0`/`1`,
strings via `jsStringToNumber`. -/
def toNum : Option JVal → Option Int
  | none => none
  | some .jnull => some 0
  | some (.jbool b) => some (if b then 1 else 0)
  | some (.jnum n) => some n
  | some (.jstr s) => jsStringToNumber s

/-- The comparator `(a, b) => b.submittedAt - a.submittedAt` of
`GET /api/reservations`, post-composed with `Array.prototype.sort`'s rule
that a NaN comparator result is treated as `+0`.  Both operands of the JS
`-` go through `ToNumber`; if either is NaN the difference is NaN. -/
def listCmp (a b : Json) : Int :=
  match toNum (Json.get b "submittedAt"), toNum (Json.get a "submittedAt") with
  | some m, some n => m - n
  | _, _ => 0

/-- Lexicographic order on character lists, modelling the default
`Array.prototype.sort()` string comparison (used on the ASCII filenames of
the batch mailer, where code-unit and code-point order coincide). -/
def charListLt : List Char → List Char → Bool
  | [], [] => false
  | [], _ :: _ => true
  | _ :: _, [] => false
  | a :: as, b :: bs => if a < b then true else if b < a then false else charListLt as bs

/-- The default comparator of `Array.prototype.sort()` on strings:
negative / zero / positive according to lexicographic comparison. -/
def nameCmp (a b : String × Option Json) : Int :=
  if charListLt a.1.data b.1.data then -1
  else if charListLt b.1.data a.1.data then 1
  else 0

/-- Stable insertion of `x` into the already-sorted `l`: `x` goes in front of
the first element it compares strictly less than, hence after every element
it ties with — the placement a stable sort gives a later-arriving element. -/
def sortedInsert (cmp : α → α → Int) (x : α) : List α → List α
  | [] => [x]
  | y :: ys => if cmp x y < 0 then x :: y :: ys else y :: sortedInsert cmp x ys

/-- `Array.prototype.sort` with a comparator, modelled as a stable insertion
sort (JS sort is stable since ES2019).  In particular, when the comparator
returns `0` on every pair — as it does when every comparison is NaN — the
array is returned in its original order. -/
def jsSort (cmp : α → α → Int) (l : List α) : List α :=
  l.foldl (fun acc x => sortedInsert cmp x acc) []

/-- The `reservationData` object assembled by `POST /api/reservations`:
`id` from `Date.now()`, `submittedAt` from `new Date().toISOString()`, all
other fields copied verbatim from the request body. -/
structure Record where
  id : Nat
  name : ReqVal
  phone : ReqVal
  email : ReqVal
  date : ReqVal
  time : ReqVal
  guests : ReqVal
  notes : ReqVal
  submittedAt : String
  deriving DecidableEq, Repr

/-- One property of `JSON.stringify`'s output object: present with its value
when the JS value is not `undefined`, dropped entirely when it is. -/
def encodeField (k : String) (v : ReqVal) : List (String × JVal) :=
  match v with
  | none => []
  | some j => [(k, j)]

/-- `JSON.parse (JSON.stringify reservationData)`: the flat JSON object
written to the record file, keys in insertion order (`id` first,
`submittedAt` last), `undefined`-valued properties dropped. -/
def encodeRecord (r : Record) : Json :=
  .obj (("id", .jnum r.id) ::
    (encodeField "name" r.name ++ (encodeField "phone" r.phone ++
     (encodeField "email" r.email ++ (encodeField "date" r.date ++
      (encodeField "time" r.time ++ (encodeField "guests" r.guests ++
       (encodeField "notes" r.notes ++ [("submittedAt", .jstr r.submittedAt)]))))))))

/-- The reservations-data directory: filenames paired with the `JSON.parse`
outcome of each file's text (`none` = malformed), in `fs.readdirSync`
enumeration order. -/
abbrev Store := List (String × Option Json)

/-- `fs.writeFileSync(path.join(dataDir, 'reservation-' + id + '.json'),
JSON.stringify(reservationData, null, 2))`: adds the record's file to the
directory.  Identifiers are fresh under the server's clock-based assignment,
so the write is modelled as creating a new directory entry. -/
def save (r : Record) (files : Store) : Store :=
  files ++ [("reservation-" ++ toString r.id ++ ".json", some (encodeRecord r))]

/-- The `files.filter(...).map(f => JSON.parse(...))` pipeline: reads files
left to right and propagates the first `JSON.parse` exception (`none`),
which aborts the whole listing. -/
def seqParse : List (Option Json) → Option (List Json)
  | [] => some []
  | none :: _ => none
  | some j :: rest => (seqParse rest).map (fun js => j :: js)

/-- An HTTP response as produced by `res.status(...).json({ success, message })`
(`res.json` alone is status 200). -/
structure Response where
  status : Nat
  success : Bool
  message : String
  deriving DecidableEq, Repr

/-- `GET /api/reservations`: filter directory entries by the `reservation-`
name prefix, `JSON.parse` each (any malformed file throws, caught as a 500
with no records), then sort with the `b.submittedAt - a.submittedAt`
comparator. -/
def listReservations (files : Store) : Except Response (List Json) :=
  match seqParse ((files.filter (fun f => strStartsWith f.1 "reservation-")).map Prod.snd) with
  | none => .error ⟨500, false, "Failed to retrieve reservations"⟩
  | some parsed => .ok (jsSort listCmp parsed)

/-- The two `transporter.sendMail` recipients of one submission. -/
inductive Recipient where
  | restaurant : Recipient
  | guest : Recipient
  deriving DecidableEq, Repr

/-- The side effects of one `POST /api/reservations` request: the record
files successfully written and the `sendMail` calls attempted, in order. -/
structure Effects where
  writes : List (String × Record)
  sends : List Recipient
  deriving DecidableEq, Repr

/-- Server-process state and effect oracles for one request:
`emailConfigured` / `transporterSet` are the module-level globals set by
`initializeEmail` (`transporterSet` = `transporter !== null`); `nowMs` and
`nowIso` are `Date.now()` and `new Date().toISOString()` at this request;
`writeOk` is whether `fs.writeFileSync` succeeds (else it throws); and
`restaurantSendOk` / `guestSendOk` are whether each attempted
`transporter.sendMail` resolves (else it rejects). -/
structure PostEnv where
  emailConfigured : Bool
  transporterSet : Bool
  nowMs : Nat
  nowIso : String
  writeOk : Bool
  restaurantSendOk : Bool
  guestSendOk : Bool
  deriving Repr

/-- The destructured request body of `POST /api/reservations`. -/
structure PostInput where
  name : ReqVal
  phone : ReqVal
  email : ReqVal
  date : ReqVal
  time : ReqVal
  guests : ReqVal
  notes : ReqVal
  deriving DecidableEq, Repr

/-- The validation test `!name || !phone || !email || !date || !time ||
!guests`, phrased positively: `true` iff every required field is truthy. -/
def validInput (input : PostInput) : Bool :=
  truthy input.name && truthy input.phone && truthy input.email &&
  truthy input.date && truthy input.time && truthy input.guests

/-- `POST /api/reservations`.  Control flow of the source: reject on a falsy
required field (400, no side effects); build `reservationData` and write its
file (a throwing write lands in the outer catch: 500 with the fallback-phone
message, nothing sent); if `emailConfigured && transporter`, try the
restaurant email then the guest email inside ONE try block — so a rejected
restaurant send skips the guest send, the catch only logs, and `emailSent`
becomes true only when both resolve; respond 200 with the message variant
chosen by `emailSent`. -/
def handlePost (env : PostEnv) (input : PostInput) : Response × Effects :=
  if validInput input = false then
    (⟨400, false, "Missing required fields"⟩, ⟨[], []⟩)
  else if env.writeOk = false then
    (⟨500, false, "Failed to process reservation. Please try again or call (214) 555-1234"⟩,
     ⟨[], []⟩)
  else
    let record : Record :=
      ⟨env.nowMs, input.name, input.phone, input.email, input.date, input.time,
       input.guests, input.notes, env.nowIso⟩
    let fname := "reservation-" ++ toString env.nowMs ++ ".json"
    if env.emailConfigured && env.transporterSet then
      if env.restaurantSendOk then
        if env.guestSendOk then
          (⟨200, true, "✓ Reservation submitted! You will receive a confirmation email shortly."⟩,
           ⟨[(fname, record)], [.restaurant, .guest]⟩)
        else
          (⟨200, true, "✓ Reservation received! We will contact you shortly to confirm."⟩,
           ⟨[(fname, record)], [.restaurant, .guest]⟩)
      else
        (⟨200, true, "✓ Reservation received! We will contact you shortly to confirm."⟩,
         ⟨[(fname, record)], [.restaurant]⟩)
    else
      (⟨200, true, "✓ Reservation received! We will contact you shortly to confirm."⟩,
       ⟨[(fname, record)], []⟩)

/-- Effect oracles for the batch mailer: whether `transporter.verify()`
resolves, and whether the restaurant / guest `sendMail` of the record at a
given position in the processed sequence resolves. -/
structure BatchEnv where
  verifyOk : Bool
  restOk : Nat → Bool
  guestOk : Nat → Bool

/-- The observable outcome of a batch-mailer run: the `sendMail` calls
attempted (position in the processed sequence, recipient), the per-record
log entries (position, `true` = both-emails-sent lines, `false` = the
failure line of the per-record catch), and whether the run aborted through
the outer catch (`process.exit(1)`). -/
structure BatchResult where
  sends : List (Nat × Recipient)
  logs : List (Nat × Bool)
  aborted : Bool
  deriving DecidableEq, Repr

/-- The `for (const file of files)` loop of `sendConfirmationEmails`,
processing the parse outcomes of the files in order starting at position
`i`.  `JSON.parse` sits OUTSIDE the per-record try, so a malformed file
aborts the whole run; inside the try, the restaurant email is sent first and
the guest email only after it resolves — a rejected restaurant send skips
the guest send for that record, the catch logs the failure, and the loop
continues with the next record. -/
def runBatch (env : BatchEnv) : Nat → List (Option Json) → BatchResult
  | _, [] => ⟨[], [], false⟩
  | _, none :: _ => ⟨[], [], true⟩
  | i, some _ :: rest =>
    let r := runBatch env (i + 1) rest
    if env.restOk i then
      if env.guestOk i then
        ⟨(i, .restaurant) :: (i, .guest) :: r.sends, (i, true) :: r.logs, r.aborted⟩
      else
        ⟨(i, .restaurant) :: (i, .guest) :: r.sends, (i, false) :: r.logs, r.aborted⟩
    else
      ⟨(i, .restaurant) :: r.sends, (i, false) :: r.logs, r.aborted⟩

/-- `sendConfirmationEmails` of `src/send-confirmation-emails.js`: verify the
transport (a rejection aborts via the outer catch), list the data directory,
keep the `reservation-`-prefixed names, sort them (default lexicographic
`sort()`), and run the per-record loop. -/
def sendConfirmationEmails (env : BatchEnv) (files : Store) : BatchResult :=
  if env.verifyOk = false then
    ⟨[], [], true⟩
  else
    runBatch env 0
      ((jsSort nameCmp (files.filter (fun f => strStartsWith f.1 "reservation-"))).map Prod.snd)

/-- A request-body field that is absent (`undefined`) or the empty string. -/
def absentOrEmpty (v : ReqVal) : Prop :=
  v = none ∨ v = some (.jstr "")

instance (v : ReqVal) : Decidable (absentOrEmpty v) := by
  unfold absentOrEmpty; infer_instance

/-- A guests value that is a positive integer. -/
def isPositiveIntGuests (v : ReqVal) : Prop :=
  ∃ n : Int, 0 < n ∧ v = some (.jnum n)

/-- The failing directory of claim C1: three well-formed records whose
ISO-8601 submission timestamps are strictly increasing, enumerated by the
filesystem in that same (oldest-first) order. -/
def recA : Json := .obj [("id", .jnum 1), ("submittedAt", .jstr "2024-01-01T10:00:00.000Z")]

/-- Second record of the C1 directory (submitted one day after `recA`). -/
def recB : Json := .obj [("id", .jnum 2), ("submittedAt", .jstr "2024-01-02T10:00:00.000Z")]

/-- Third record of the C1 directory (submitted one day after `recB`). -/
def recC : Json := .obj [("id", .jnum 3), ("submittedAt", .jstr "2024-01-03T10:00:00.000Z")]

/-- The C1 directory: `recA`, `recB`, `recC` in oldest-first enumeration
order. -/
def filesABC : Store :=
  [("reservation-1.json", some recA), ("reservation-2.json", some recB),
   ("reservation-3.json", some recC)]

/-- A fully-populated request body used by several witnesses. -/
def goodInput : PostInput :=
  ⟨some (.jstr "Alice"), some (.jstr "555-0100"), some (.jstr "alice@example.com"),
   some (.jstr "2024-05-01"), some (.jstr "19:00"), some (.jnum 2), none⟩

/-- The C9 request body: every required field truthy, but a guests value of
`-1`, which is not a positive integer. -/
def c9Input : PostInput :=
  ⟨some (.jstr "Bob"), some (.jstr "555-0101"), some (.jstr "bob@example.com"),
   some (.jstr "2024-05-01"), some (.jstr "19:00"), some (.jnum (-1)), none⟩

/-- A sample record for the C4 witness. -/
def c4Rec : Record :=
  ⟨1700000000000, some (.jstr "Alice"), some (.jstr "555-0100"),
   some (.jstr "alice@example.com"), some (.jstr "2024-05-01"), some (.jstr "19:00"),
   some (.jnum 2), none, "2023-11-14T22:13:20.000Z"⟩

/-- A server state in which everything works: channel ready, storage
writable, both sends resolving. -/
def readyEnv : PostEnv :=
  ⟨true, true, 1700000000000, "2023-11-14T22:13:20.000Z", true, true, true⟩

/-- Like `readyEnv`, but the restaurant-facing `sendMail` rejects. -/
def sendFailEnv : PostEnv :=
  ⟨true, true, 1700000000000, "2023-11-14T22:13:20.000Z", true, false, true⟩

/-- Like `readyEnv`, but `fs.writeFileSync` throws. -/
def writeFailEnv : PostEnv :=
  ⟨true, true, 1700000000000, "2023-11-14T22:13:20.000Z", false, true, true⟩

/-- A server state with the notification channel not ready (no credentials:
`emailConfigured` false and `transporter` null). -/
def offlineEnv : PostEnv :=
  ⟨false, false, 1700000000000, "2023-11-14T22:13:20.000Z", true, true, true⟩

/-- A request body whose `name` is absent (`undefined`). -/
def c5Input : PostInput :=
  ⟨none, some (.jstr "555-0100"), some (.jstr "alice@example.com"),
   some (.jstr "2024-05-01"), some (.jstr "19:00"), some (.jnum 2), none⟩

/-- The record `readyEnv`/`goodInput` produces, for the C9 witness. -/
def c9WRec : Record :=
  ⟨1700000000000, some (.jstr "Alice"), some (.jstr "555-0100"),
   some (.jstr "alice@example.com"), some (.jstr "2024-05-01"), some (.jstr "19:00"),
   some (.jnum 2), none, "2023-11-14T22:13:20.000Z"⟩

/-- Batch-mailer oracles in which every restaurant-facing send rejects. -/
def c3FailEnv : BatchEnv := ⟨true, fun _ => false, fun _ => true⟩

/-- A directory holding one well-formed record, for the C3 counterexample. -/
def c3Files : Store :=
  [("reservation-1.json",
    some (.obj [("id", .jnum 1), ("submittedAt", .jstr "2024-01-01T10:00:00.000Z")]))]

/-- Batch-mailer oracles in which every send resolves. -/
def c3OkEnv : BatchEnv := ⟨true, fun _ => true, fun _ => true⟩

/-- A directory holding one malformed reservation file, for the C10
witness. -/
def c10Files : Store := [("reservation-bad.json", none)]

/-! ## Helper lemmas -/

theorem mem_sortedInsert {cmp : α → α → Int} {x a : α} :
    ∀ {l : List α}, a ∈ sortedInsert cmp x l ↔ a = x ∨ a ∈ l := by
  intro l
  induction l with
  | nil => simp [sortedInsert]
  | cons y ys ih =>
    by_cases h : cmp x y < 0
    · simp [sortedInsert, h]
    · simp [sortedInsert, h, ih]
      tauto

theorem length_sortedInsert {cmp : α → α → Int} {x : α} :
    ∀ {l : List α}, (sortedInsert cmp x l).length = l.length + 1 := by
  intro l
  induction l with
  | nil => simp [sortedInsert]
  | cons y ys ih =>
    by_cases h : cmp x y < 0
    · simp [sortedInsert, h]
    · simp [sortedInsert, h, ih]

theorem mem_foldl_sortedInsert {cmp : α → α → Int} {a : α} :
    ∀ (l acc : List α),
      a ∈ l.foldl (fun acc x => sortedInsert cmp x acc) acc ↔ a ∈ acc ∨ a ∈ l := by
  intro l
  induction l with
  | nil => simp
  | cons x xs ih =>
    intro acc
    simp only [List.foldl_cons, ih, mem_sortedInsert, List.mem_cons]
    tauto

theorem mem_jsSort {cmp : α → α → Int} {a : α} {l : List α} :
    a ∈ jsSort cmp l ↔ a ∈ l := by
  simp [jsSort, mem_foldl_sortedInsert]

theorem length_foldl_sortedInsert {cmp : α → α → Int} :
    ∀ (l acc : List α),
      (l.foldl (fun acc x => sortedInsert cmp x acc) acc).length = acc.length + l.length := by
  intro l
  induction l with
  | nil => simp
  | cons x xs ih =>
    intro acc
    simp only [List.foldl_cons, ih, length_sortedInsert, List.length_cons]
    omega

theorem length_jsSort {cmp : α → α → Int} {l : List α} :
    (jsSort cmp l).length = l.length := by
  simp [jsSort, length_foldl_sortedInsert]

theorem seqParse_eq_none_of_mem_none {l : List (Option Json)} (h : none ∈ l) :
    seqParse l = none := by
  induction l with
  | nil => cases h
  | cons x rest ih =>
    cases x with
    | none => rfl
    | some j =>
      have : none ∈ rest := by simpa using h
      simp [seqParse, ih this]

theorem seqParse_all_some {l : List (Option Json)} (h : ∀ x ∈ l, x ≠ none) :
    ∃ js, seqParse l = some js ∧ ∀ j : Json, j ∈ js ↔ some j ∈ l := by
  induction l with
  | nil => exact ⟨[], rfl, by simp⟩
  | cons x rest ih =>
    cases x with
    | none => exact absurd rfl (h none (List.mem_cons_self _ _))
    | some j =>
      obtain ⟨js, hjs, hmem⟩ := ih (fun x hx => h x (List.mem_cons_of_mem _ hx))
      refine ⟨j :: js, by simp [seqParse, hjs], fun j' => ?_⟩
      simp [hmem j']

theorem strStartsWith_append (p s : String) : strStartsWith (p ++ s) p = true := by
  simp [strStartsWith, String.data_append, List.isPrefixOf_iff_prefix]

/-- Full characterisation of the batch loop over well-formed records:
it never aborts, logs one entry per record, attempts the restaurant send of
every record (whatever happened to earlier records), attempts between `N`
and `2N` sends in total, and attempts exactly `2N` when every restaurant
send succeeds. -/
theorem runBatch_spec (env : BatchEnv) :
    ∀ (i : Nat) (l : List (Option Json)), (∀ x ∈ l, x ≠ none) →
    (runBatch env i l).aborted = false ∧
    (runBatch env i l).logs.length = l.length ∧
    (∀ k, k < l.length → (i + k, Recipient.restaurant) ∈ (runBatch env i l).sends) ∧
    l.length ≤ (runBatch env i l).sends.length ∧
    (runBatch env i l).sends.length ≤ 2 * l.length ∧
    ((∀ k, k < l.length → env.restOk (i + k) = true) →
      (runBatch env i l).sends.length = 2 * l.length) := by
  intro i l
  induction l generalizing i with
  | nil => intro _; simp [runBatch]
  | cons x rest ih =>
    intro h
    cases x with
    | none => exact absurd rfl (h none (List.mem_cons_self _ _))
    | some j =>
      obtain ⟨ha, hlog, hmem, hlb, hub, hall⟩ :=
        ih (i + 1) (fun x hx => h x (List.mem_cons_of_mem _ hx))
      have hshift : ∀ k : Nat, i + (k + 1) = (i + 1) + k := by omega
      cases hro : env.restOk i with
      | false =>
        refine ⟨by simp [runBatch, hro, ha], by simp [runBatch, hro, hlog], ?_, ?_, ?_, ?_⟩
        · intro k hk
          cases k with
          | zero => simp [runBatch, hro]
          | succ k' =>
            have := hmem k' (by simpa using hk)
            rw [hshift k']
            simp [runBatch, hro]
            right
            exact this
        · simp [runBatch, hro]; omega
        · simp [runBatch, hro]; omega
        · intro hf
          have := hf 0 (by simp)
          rw [Nat.add_zero, hro] at this
          cases this
      | true =>
        have hsends :
            (runBatch env i (some j :: rest)).sends =
              (i, Recipient.restaurant) :: (i, Recipient.guest) ::
                (runBatch env (i + 1) rest).sends := by
          cases hgo : env.guestOk i <;> simp [runBatch, hro, hgo]
        have hlogs :
            (runBatch env i (some j :: rest)).logs.length =
              (runBatch env (i + 1) rest).logs.length + 1 := by
          cases hgo : env.guestOk i <;> simp [runBatch, hro, hgo]
        have habort :
            (runBatch env i (some j :: rest)).aborted =
              (runBatch env (i + 1) rest).aborted := by
          cases hgo : env.guestOk i <;> simp [runBatch, hro, hgo]
        refine ⟨by rw [habort, ha], by rw [hlogs, hlog]; simp, ?_, ?_, ?_, ?_⟩
        · intro k hk
          cases k with
          | zero => rw [hsends]; simp
          | succ k' =>
            have := hmem k' (by simpa using hk)
            rw [hshift k', hsends]
            simp only [List.mem_cons]
            tauto
        · rw [hsends]; simp; omega
        · rw [hsends]; simp; omega
        · intro hf
          have h2 : (runBatch env (i + 1) rest).sends.length = 2 * rest.length := by
            apply hall
            intro k hk
            have := hf (k + 1) (by simpa using hk)
            rwa [hshift k] at this
          rw [hsends]
          simp [h2]
          omega

/-- The record file written by a valid submission whose storage write
succeeds: exactly one, named `reservation-<id>.json`, with `id = Date.now()`,
`submittedAt` the current ISO timestamp, and every other field the caller's
input unchanged.  All four notification branches leave the write untouched. -/
theorem handlePost_writes (env : PostEnv) (input : PostInput)
    (hv : validInput input = true) (hw : env.writeOk = true) :
    (handlePost env input).2.writes =
      [("reservation-" ++ toString env.nowMs ++ ".json",
        ⟨env.nowMs, input.name, input.phone, input.email, input.date, input.time,
         input.guests, input.notes, env.nowIso⟩)] := by
  cases hec : env.emailConfigured <;> cases hts : env.transporterSet <;>
    cases hr : env.restaurantSendOk <;> cases hg : env.guestSendOk <;>
    simp [handlePost, hv, hw, hec, hts, hr, hg]

/-- Every field of the JSON object written for a record reads back as the
exact value the record carried: the stored object is field-for-field equal
to `reservationData`, with `undefined`-valued optional fields reading back
as `undefined` (absent key). -/
theorem encodeRecord_get (r : Record) :
    (encodeRecord r).get "id" = some (.jnum r.id) ∧
    (encodeRecord r).get "name" = r.name ∧
    (encodeRecord r).get "phone" = r.phone ∧
    (encodeRecord r).get "email" = r.email ∧
    (encodeRecord r).get "date" = r.date ∧
    (encodeRecord r).get "time" = r.time ∧
    (encodeRecord r).get "guests" = r.guests ∧
    (encodeRecord r).get "notes" = r.notes ∧
    (encodeRecord r).get "submittedAt" = some (.jstr r.submittedAt) := by
  obtain ⟨i, name, phone, email, date, time, guests, notes, sub⟩ := r
  cases name <;> cases phone <;> cases email <;> cases date <;> cases time <;>
    cases guests <;> cases notes <;>
    simp [encodeRecord, encodeField, Json.get, jget]

/-! ## Claims -/

/-- C1: the claim says `GET /reservations` returns records sorted by
submission timestamp descending (T3,T2,T1 for submission times T1<T2<T3).
The code's comparator `b.submittedAt - a.submittedAt` subtracts ISO-8601
strings, which is NaN; `Array.prototype.sort` treats a NaN comparator result
as 0, and the sort is stable, so the listing comes back in directory order.
Here three records submitted at increasing times T1<T2<T3 and enumerated in
that order are returned as T1,T2,T3 — not the claimed T3,T2,T1. -/
theorem c1_listing_not_sorted_desc :
    listReservations filesABC = .ok [recA, recB, recC] ∧
    [recA, recB, recC] ≠ [recC, recB, recA] :=
  ⟨rfl, by decide⟩

/-- C2 counterexample: the claim says that if the restaurant-facing send
fails, the guest-facing send is still attempted.  With the channel ready and
the restaurant send rejecting, the handler attempts only the restaurant
send — the guest send is never attempted. -/
theorem c2_counterexample :
    (handlePost sendFailEnv goodInput).2.sends = [Recipient.restaurant] ∧
    Recipient.guest ∉ (handlePost sendFailEnv goodInput).2.sends := by
  decide

/-- C2 (amended): both `sendMail` calls sit in one try block, so when the
restaurant-facing send throws, the guest-facing send is not attempted; and
the result records only the single flag `emailSent` (true iff both sends
succeeded, visible as the response-message variant), not which of the two
succeeded. -/
theorem c2_sends_share_one_try_block (env : PostEnv) (input : PostInput)
    (hv : validInput input = true) (hw : env.writeOk = true)
    (hc : env.emailConfigured = true) (ht : env.transporterSet = true) :
    (handlePost env input).2.sends =
      (if env.restaurantSendOk then [Recipient.restaurant, Recipient.guest]
       else [Recipient.restaurant]) ∧
    ((handlePost env input).1.message =
        "✓ Reservation submitted! You will receive a confirmation email shortly." ↔
      env.restaurantSendOk = true ∧ env.guestSendOk = true) := by
  cases hr : env.restaurantSendOk <;> cases hg : env.guestSendOk <;>
    simp [handlePost, hv, hw, hc, ht, hr, hg]

/-- C2 witness: the amended theorem applied to a concrete ready-channel
submission whose restaurant send rejects. -/
theorem c2_sends_share_one_try_block_witness :
    (validInput goodInput = true ∧ sendFailEnv.writeOk = true ∧
     sendFailEnv.emailConfigured = true ∧ sendFailEnv.transporterSet = true) ∧
    ((handlePost sendFailEnv goodInput).2.sends =
      (if sendFailEnv.restaurantSendOk then [Recipient.restaurant, Recipient.guest]
       else [Recipient.restaurant]) ∧
     ((handlePost sendFailEnv goodInput).1.message =
        "✓ Reservation submitted! You will receive a confirmation email shortly." ↔
      sendFailEnv.restaurantSendOk = true ∧ sendFailEnv.guestSendOk = true)) :=
  ⟨⟨by decide, rfl, rfl, rfl⟩,
   c2_sends_share_one_try_block sendFailEnv goodInput (by decide) rfl rfl rfl⟩

/-- C3 counterexample: the claim says a run over N stored records attempts
exactly 2N sends.  Over one stored record whose restaurant-facing send
rejects, only one send is attempted, not 2. -/
theorem c3_counterexample :
    (sendConfirmationEmails c3FailEnv c3Files).sends.length = 1 ∧
    (sendConfirmationEmails c3FailEnv c3Files).sends.length ≠
      2 * (c3Files.filter fun f => strStartsWith f.1 "reservation-").length := by
  constructor
  · decide
  · decide

/-- C3 (amended): over N stored well-formed records (and a verified
transport) the batch run never aborts, logs one success/failure entry per
record, attempts the restaurant-facing send of every record — one record's
failure never prevents the sends for subsequent records — and attempts
between N and 2N sends in total: the guest-facing send of a record is
attempted only when its restaurant-facing send succeeded, so exactly 2N
sends are attempted precisely when every restaurant send succeeds. -/
theorem c3_batch_attempts (env : BatchEnv) (files : Store)
    (hverify : env.verifyOk = true)
    (hparse : ∀ f ∈ files, strStartsWith f.1 "reservation-" = true → f.2 ≠ none) :
    (sendConfirmationEmails env files).aborted = false ∧
    (sendConfirmationEmails env files).logs.length =
      (files.filter fun f => strStartsWith f.1 "reservation-").length ∧
    (∀ k, k < (files.filter fun f => strStartsWith f.1 "reservation-").length →
      (k, Recipient.restaurant) ∈ (sendConfirmationEmails env files).sends) ∧
    (files.filter fun f => strStartsWith f.1 "reservation-").length ≤
      (sendConfirmationEmails env files).sends.length ∧
    (sendConfirmationEmails env files).sends.length ≤
      2 * (files.filter fun f => strStartsWith f.1 "reservation-").length ∧
    ((∀ k, k < (files.filter fun f => strStartsWith f.1 "reservation-").length →
        env.restOk k = true) →
      (sendConfirmationEmails env files).sends.length =
        2 * (files.filter fun f => strStartsWith f.1 "reservation-").length) := by
  have hL : ((jsSort nameCmp (files.filter fun f => strStartsWith f.1 "reservation-")).map
      Prod.snd).length = (files.filter fun f => strStartsWith f.1 "reservation-").length := by
    rw [List.length_map, length_jsSort]
  have hc : ∀ x ∈ (jsSort nameCmp
      (files.filter fun f => strStartsWith f.1 "reservation-")).map Prod.snd, x ≠ none := by
    intro x hx
    obtain ⟨f, hf, rfl⟩ := List.mem_map.mp hx
    have hf3 := List.mem_filter.mp (mem_jsSort.mp hf)
    exact hparse f hf3.1 hf3.2
  have hrun := runBatch_spec env 0 _ hc
  rw [hL] at hrun
  simp only [Nat.zero_add] at hrun
  obtain ⟨ha, hlog, hmem, hlb, hub, hall⟩ := hrun
  have hrw : sendConfirmationEmails env files =
      runBatch env 0 ((jsSort nameCmp
        (files.filter fun f => strStartsWith f.1 "reservation-")).map Prod.snd) := by
    simp [sendConfirmationEmails, hverify]
  rw [hrw]
  exact ⟨ha, hlog, hmem, hlb, hub, hall⟩

/-- C3 witness: the amended theorem applied to a one-record directory with
all sends succeeding. -/
theorem c3_batch_attempts_witness :
    (c3OkEnv.verifyOk = true ∧
     ∀ f ∈ c3Files, strStartsWith f.1 "reservation-" = true → f.2 ≠ none) ∧
    ((sendConfirmationEmails c3OkEnv c3Files).aborted = false ∧
     (sendConfirmationEmails c3OkEnv c3Files).logs.length =
       (c3Files.filter fun f => strStartsWith f.1 "reservation-").length ∧
     (∀ k, k < (c3Files.filter fun f => strStartsWith f.1 "reservation-").length →
       (k, Recipient.restaurant) ∈ (sendConfirmationEmails c3OkEnv c3Files).sends) ∧
     (c3Files.filter fun f => strStartsWith f.1 "reservation-").length ≤
       (sendConfirmationEmails c3OkEnv c3Files).sends.length ∧
     (sendConfirmationEmails c3OkEnv c3Files).sends.length ≤
       2 * (c3Files.filter fun f => strStartsWith f.1 "reservation-").length ∧
     ((∀ k, k < (c3Files.filter fun f => strStartsWith f.1 "reservation-").length →
         c3OkEnv.restOk k = true) →
       (sendConfirmationEmails c3OkEnv c3Files).sends.length =
         2 * (c3Files.filter fun f => strStartsWith f.1 "reservation-").length)) :=
  ⟨⟨rfl, by decide⟩, c3_batch_attempts c3OkEnv c3Files rfl (by decide)⟩

/-- C4: a record written by `save` and read back through the listing is
field-for-field equal to the record passed in: the listing succeeds, the
stored object is among the results, and each of its properties reads back as
exactly the value `reservationData` carried (absent key for an `undefined`
optional field). -/
theorem c4_save_listAll_roundtrip (r : Record) (files : Store)
    (h : ∀ f ∈ files, strStartsWith f.1 "reservation-" = true → f.2 ≠ none) :
    ∃ out, listReservations (save r files) = .ok out ∧ encodeRecord r ∈ out ∧
      (encodeRecord r).get "id" = some (.jnum r.id) ∧
      (encodeRecord r).get "name" = r.name ∧
      (encodeRecord r).get "phone" = r.phone ∧
      (encodeRecord r).get "email" = r.email ∧
      (encodeRecord r).get "date" = r.date ∧
      (encodeRecord r).get "time" = r.time ∧
      (encodeRecord r).get "guests" = r.guests ∧
      (encodeRecord r).get "notes" = r.notes ∧
      (encodeRecord r).get "submittedAt" = some (.jstr r.submittedAt) := by
  have hpre : strStartsWith ("reservation-" ++ toString r.id ++ ".json") "reservation-" = true := by
    have h0 := strStartsWith_append "reservation-" (toString r.id ++ ".json")
    rwa [← String.append_assoc] at h0
  have hfil : (save r files).filter (fun f => strStartsWith f.1 "reservation-")
      = files.filter (fun f => strStartsWith f.1 "reservation-")
        ++ [("reservation-" ++ toString r.id ++ ".json", some (encodeRecord r))] := by
    simp [save, List.filter_append, hpre]
  have hcontents : ∀ x ∈
      ((save r files).filter (fun f => strStartsWith f.1 "reservation-")).map Prod.snd,
      x ≠ none := by
    rw [hfil]
    intro x hx
    rw [List.map_append, List.mem_append] at hx
    rcases hx with hx | hx
    · obtain ⟨f, hf, rfl⟩ := List.mem_map.mp hx
      have hf2 := List.mem_filter.mp hf
      exact h f hf2.1 hf2.2
    · simp at hx
      simp [hx]
  obtain ⟨js, hseq, hmem⟩ := seqParse_all_some hcontents
  obtain ⟨g1, g2, g3, g4, g5, g6, g7, g8, g9⟩ := encodeRecord_get r
  refine ⟨jsSort listCmp js, ?_, ?_, g1, g2, g3, g4, g5, g6, g7, g8, g9⟩
  · unfold listReservations
    rw [hseq]
  · rw [mem_jsSort, hmem, hfil]
    simp

/-- C4 witness: the round-trip theorem applied to a concrete record saved
into an empty directory. -/
theorem c4_save_listAll_roundtrip_witness :
    (∀ f ∈ ([] : Store), strStartsWith f.1 "reservation-" = true → f.2 ≠ none) ∧
    (∃ out, listReservations (save c4Rec []) = .ok out ∧ encodeRecord c4Rec ∈ out ∧
      (encodeRecord c4Rec).get "id" = some (.jnum c4Rec.id) ∧
      (encodeRecord c4Rec).get "name" = c4Rec.name ∧
      (encodeRecord c4Rec).get "phone" = c4Rec.phone ∧
      (encodeRecord c4Rec).get "email" = c4Rec.email ∧
      (encodeRecord c4Rec).get "date" = c4Rec.date ∧
      (encodeRecord c4Rec).get "time" = c4Rec.time ∧
      (encodeRecord c4Rec).get "guests" = c4Rec.guests ∧
      (encodeRecord c4Rec).get "notes" = c4Rec.notes ∧
      (encodeRecord c4Rec).get "submittedAt" = some (.jstr c4Rec.submittedAt)) :=
  ⟨by decide, c4_save_listAll_roundtrip c4Rec [] (by decide)⟩

/-- C5: a submission with any required field absent or empty is rejected
with status 400, `success = false` and message "Missing required fields",
before any side effect: no file write and no send attempt. -/
theorem c5_missing_field_rejected (env : PostEnv) (input : PostInput)
    (h : absentOrEmpty input.name ∨ absentOrEmpty input.phone ∨ absentOrEmpty input.email ∨
         absentOrEmpty input.date ∨ absentOrEmpty input.time ∨ absentOrEmpty input.guests) :
    handlePost env input = (⟨400, false, "Missing required fields"⟩, ⟨[], []⟩) := by
  have hv : validInput input = false := by
    rcases h with h | h | h | h | h | h <;> rcases h with h | h <;>
      simp [validInput, truthy, h]
  simp [handlePost, hv]

/-- C5 witness: the rejection theorem applied to a body missing `name`. -/
theorem c5_missing_field_rejected_witness :
    (absentOrEmpty c5Input.name ∨ absentOrEmpty c5Input.phone ∨ absentOrEmpty c5Input.email ∨
     absentOrEmpty c5Input.date ∨ absentOrEmpty c5Input.time ∨ absentOrEmpty c5Input.guests) ∧
    handlePost readyEnv c5Input = (⟨400, false, "Missing required fields"⟩, ⟨[], []⟩) :=
  ⟨by decide, c5_missing_field_rejected readyEnv c5Input (by decide)⟩

/-- C6: when the storage write of a valid submission throws, the response is
a 500 failure whose message ends in the human fallback contact instruction
"call (214) 555-1234", and no write is recorded and no send is attempted. -/
theorem c6_storage_failure_fallback (env : PostEnv) (input : PostInput)
    (hv : validInput input = true) (hw : env.writeOk = false) :
    handlePost env input =
      (⟨500, false, "Failed to process reservation. Please try again or call (214) 555-1234"⟩,
       ⟨[], []⟩) ∧
    ∃ pre, (handlePost env input).1.message = pre ++ "call (214) 555-1234" := by
  have h1 : handlePost env input =
      (⟨500, false, "Failed to process reservation. Please try again or call (214) 555-1234"⟩,
       ⟨[], []⟩) := by
    simp [handlePost, hv, hw]
  refine ⟨h1, "Failed to process reservation. Please try again or ", ?_⟩
  rw [h1]
  decide

/-- C6 witness: the storage-failure theorem applied to a valid submission
against an unwritable store. -/
theorem c6_storage_failure_fallback_witness :
    (validInput goodInput = true ∧ writeFailEnv.writeOk = false) ∧
    (handlePost writeFailEnv goodInput =
      (⟨500, false, "Failed to process reservation. Please try again or call (214) 555-1234"⟩,
       ⟨[], []⟩) ∧
     ∃ pre, (handlePost writeFailEnv goodInput).1.message = pre ++ "call (214) 555-1234") :=
  ⟨⟨by decide, rfl⟩, c6_storage_failure_fallback writeFailEnv goodInput (by decide) rfl⟩

/-- C7: a valid submission while the channel is not ready (`emailConfigured`
false — the Disabled and Unavailable states — or `transporter` null) still
succeeds with status 200, `success = true` and the "we will contact you"
message variant, and neither mail send is attempted. -/
theorem c7_channel_not_ready_skips_sends (env : PostEnv) (input : PostInput)
    (hv : validInput input = true) (hw : env.writeOk = true)
    (hc : env.emailConfigured = false ∨ env.transporterSet = false) :
    (handlePost env input).1 =
      ⟨200, true, "✓ Reservation received! We will contact you shortly to confirm."⟩ ∧
    (handlePost env input).2.sends = [] := by
  rcases hc with hc | hc <;> simp [handlePost, hv, hw, hc]

/-- C7 witness: the degraded-mode theorem applied to a valid submission with
the notifier disabled. -/
theorem c7_channel_not_ready_skips_sends_witness :
    (validInput goodInput = true ∧ offlineEnv.writeOk = true ∧
     offlineEnv.emailConfigured = false) ∧
    ((handlePost offlineEnv goodInput).1 =
      ⟨200, true, "✓ Reservation received! We will contact you shortly to confirm."⟩ ∧
     (handlePost offlineEnv goodInput).2.sends = []) :=
  ⟨⟨by decide, rfl, rfl⟩,
   c7_channel_not_ready_skips_sends offlineEnv goodInput (by decide) rfl (Or.inl rfl)⟩

/-- C8: a valid submission whose write succeeds creates exactly one record
file, named with the fixed `reservation-` prefix followed by the identifier;
the identifier is `Date.now()`, the submission timestamp the current ISO
time, and every other stored field the caller's input unchanged. -/
theorem c8_single_record_file (env : PostEnv) (input : PostInput)
    (hv : validInput input = true) (hw : env.writeOk = true) :
    (handlePost env input).2.writes =
      [("reservation-" ++ toString env.nowMs ++ ".json",
        ⟨env.nowMs, input.name, input.phone, input.email, input.date, input.time,
         input.guests, input.notes, env.nowIso⟩)] :=
  handlePost_writes env input hv hw

/-- C8 witness: the record-creation theorem applied to a concrete valid
submission. -/
theorem c8_single_record_file_witness :
    (validInput goodInput = true ∧ readyEnv.writeOk = true) ∧
    (handlePost readyEnv goodInput).2.writes =
      [("reservation-" ++ toString readyEnv.nowMs ++ ".json",
        ⟨readyEnv.nowMs, goodInput.name, goodInput.phone, goodInput.email, goodInput.date,
         goodInput.time, goodInput.guests, goodInput.notes, readyEnv.nowIso⟩)] :=
  ⟨⟨by decide, rfl⟩, c8_single_record_file readyEnv goodInput (by decide) rfl⟩

/-- C9 counterexample: the claim says no submission whose guests value is
not a positive integer results in a stored record.  A guests value of `-1`
is truthy, so the submission passes validation and its record is stored,
yet `-1` is not a positive integer. -/
theorem c9_counterexample :
    ((handlePost readyEnv c9Input).2.writes.map fun w => w.2.guests) =
      [some (.jnum (-1))] ∧
    ¬ isPositiveIntGuests (some (.jnum (-1))) := by
  refine ⟨by decide, ?_⟩
  rintro ⟨n, hn, heq⟩
  simp only [Option.some.injEq, JVal.jnum.injEq] at heq
  omega

/-- C9 (amended): validation only requires `guests` to be truthy, so every
persisted record's guests value is truthy (not absent, null, false, zero or
the empty string) — but it need not be a positive integer (see the
counterexample, where `-1` is stored). -/
theorem c9_stored_guests_truthy (env : PostEnv) (input : PostInput)
    (fname : String) (r : Record)
    (hmem : (fname, r) ∈ (handlePost env input).2.writes) :
    truthy r.guests = true := by
  cases hv : validInput input with
  | false => simp [handlePost, hv] at hmem
  | true =>
    cases hw : env.writeOk with
    | false => simp [handlePost, hv, hw] at hmem
    | true =>
      rw [handlePost_writes env input hv hw, List.mem_singleton] at hmem
      have hg : truthy input.guests = true := by
        simp only [validInput, Bool.and_eq_true] at hv
        exact hv.2
      have h2 : r = ⟨env.nowMs, input.name, input.phone, input.email, input.date,
          input.time, input.guests, input.notes, env.nowIso⟩ :=
        congrArg Prod.snd hmem
      rw [h2]
      exact hg

/-- C9 witness: the amended theorem applied to the record stored for a
concrete valid submission. -/
theorem c9_stored_guests_truthy_witness :
    ("reservation-1700000000000.json", c9WRec) ∈ (handlePost readyEnv goodInput).2.writes ∧
    truthy c9WRec.guests = true :=
  ⟨by decide,
   c9_stored_guests_truthy readyEnv goodInput "reservation-1700000000000.json" c9WRec
     (by decide)⟩

/-- C10: if any file in the storage directory whose name starts with the
`reservation-` prefix is malformed (its text does not parse as JSON), the
whole listing fails with a 500 response and message "Failed to retrieve
reservations", returning no records at all. -/
theorem c10_malformed_file_fails_listing (files : Store)
    (h : ∃ f ∈ files, strStartsWith f.1 "reservation-" = true ∧ f.2 = none) :
    listReservations files = .error ⟨500, false, "Failed to retrieve reservations"⟩ := by
  obtain ⟨f, hf, hp, hn⟩ := h
  have hmem : none ∈ (files.filter fun f => strStartsWith f.1 "reservation-").map Prod.snd :=
    List.mem_map.mpr ⟨f, List.mem_filter.mpr ⟨hf, hp⟩, hn⟩
  unfold listReservations
  rw [seqParse_eq_none_of_mem_none hmem]

/-- C10 witness: the failure theorem applied to a directory holding one
malformed reservation file. -/
theorem c10_malformed_file_fails_listing_witness :
    (∃ f ∈ c10Files, strStartsWith f.1 "reservation-" = true ∧ f.2 = none) ∧
    listReservations c10Files = .error ⟨500, false, "Failed to retrieve reservations"⟩ :=
  ⟨by decide, c10_malformed_file_fails_listing c10Files (by decide)⟩

end CrossRoads
